import Mathlib

/-!
# Verification of the matrix-puppet-server room/relay core

Shallow embedding of the program in `src/base.ts` (class `Base`) and the
appended `Puppet` class (`src/unnamed`, second source file).  JavaScript
strings are modelled as `List Char`; byte buffers as `List Nat` with every
byte `< 256`; each asynchronous network operation is modelled by an
environment field of type `Except Err _` holding that call's outcome, and a
handler is a pure function returning the list of performed operations (its
trace of `Effect`s) together with the settlement of the promise it returns
(`Outcome`).
-/

namespace MatrixPuppet

/-- JavaScript string, as its list of characters. -/
abbrev Str := List Char

/-- An error value (`Error.message`), opaque label. -/
abbrev Err := String

/-! ## Identifier codec, `base.ts` lines 52-53

`const a2b = a => new Buffer(a).toString('base64');`
`const b2a = b => new Buffer(b, 'base64').toString('ascii');`

Base64 per RFC 4648 (what `Buffer.toString('base64')` emits); Node's
`'ascii'` decoder takes each byte modulo 128. -/

/-- Character `n` (a sextet, `n < 64`) of the base64 alphabet. -/
def sextetChar (n : Nat) : Char :=
  if n < 26 then Char.ofNat (65 + n)
  else if n < 52 then Char.ofNat (97 + (n - 26))
  else if n < 62 then Char.ofNat (48 + (n - 52))
  else if n = 62 then '+'
  else '/'

/-- Index of a base64 alphabet character (inverse of `sextetChar`). -/
def sextetIndex (c : Char) : Nat :=
  if 65 ≤ c.toNat ∧ c.toNat ≤ 90 then c.toNat - 65
  else if 97 ≤ c.toNat ∧ c.toNat ≤ 122 then c.toNat - 97 + 26
  else if 48 ≤ c.toNat ∧ c.toNat ≤ 57 then c.toNat - 48 + 52
  else if c = '+' then 62
  else 63

/-- Base64 encoding of a byte list, with `'='` padding. -/
def b64encode : List Nat → List Char
  | [] => []
  | [b0] => [sextetChar (b0 / 4), sextetChar (b0 % 4 * 16), '=', '=']
  | [b0, b1] => [sextetChar (b0 / 4), sextetChar (b0 % 4 * 16 + b1 / 16),
                 sextetChar (b1 % 16 * 4), '=']
  | b0 :: b1 :: b2 :: rest =>
      sextetChar (b0 / 4) :: sextetChar (b0 % 4 * 16 + b1 / 16) ::
      sextetChar (b1 % 16 * 4 + b2 / 64) :: sextetChar (b2 % 64) :: b64encode rest

/-- Base64 parsing back to bytes (`Buffer(b, 'base64')`). -/
def b64decodeRaw : List Char → List Nat
  | c0 :: c1 :: c2 :: c3 :: rest =>
      let s0 := sextetIndex c0
      let s1 := sextetIndex c1
      if c2 = '=' then [s0 * 4 + s1 / 16]
      else
        let s2 := sextetIndex c2
        if c3 = '=' then [s0 * 4 + s1 / 16, s1 % 16 * 16 + s2 / 4]
        else (s0 * 4 + s1 / 16) :: (s1 % 16 * 16 + s2 / 4) ::
             (s2 % 4 * 64 + sextetIndex c3) :: b64decodeRaw rest
  | _ => []

/-- `a2b` on raw identifier bytes: base64 of the bytes (line 52). -/
def a2b (bytes : List Nat) : List Char := b64encode bytes

/-- `b2a`: base64-parse, then Node `'ascii'` decoding, which masks every
byte to its low 7 bits (line 53). -/
def b2a (s : List Char) : List Nat := (b64decodeRaw s).map (fun b => b % 128)

/-- UTF-8 encoding of one character (how `new Buffer(string)` turns a
string into bytes before base64). -/
def utf8EncodeChar (c : Char) : List Nat :=
  let n := c.toNat
  if n < 128 then [n]
  else if n < 2048 then [192 + n / 64, 128 + n % 64]
  else if n < 65536 then [224 + n / 4096, 128 + n / 64 % 64, 128 + n % 64]
  else [240 + n / 262144, 128 + n / 4096 % 64, 128 + n / 64 % 64, 128 + n % 64]

/-- UTF-8 encoding of a string. -/
def utf8Encode (s : Str) : List Nat := s.flatMap utf8EncodeChar

/-- `a2b` applied to a string argument (the call sites pass strings, which
`new Buffer` first encodes as UTF-8). -/
def a2bStr (s : Str) : Str := b64encode (utf8Encode s)

/-- `b2a` producing a string: each decoded byte, masked to 7 bits, becomes
one character (Node `'ascii'` decoding). -/
def b2aStr (s : Str) : Str := (b64decodeRaw s).map (fun b => Char.ofNat (b % 128))

/-! ## Loop-prevention tagger, `base.ts` lines 60-73 and 622-633 -/

/-- `defaultDeduplicationTag()` (line 622): a space followed by U+FEFF. -/
def defaultDeduplicationTag : Str := [' ', Char.ofNat 65279]

/-- The compiled default pattern `" ﻿$"` (line 625): as a `RegExp`
test this matches exactly the strings having the marker as a suffix. -/
def defaultDeduplicationTagTest (text : Str) : Bool :=
  defaultDeduplicationTag.isSuffixOf text

/-- The optional per-identity-pair deduplication override (`config.ts`
shape as used by the `Base` constructor, lines 71-73): an optional marker
string and an optional pattern.  The pattern field is modelled by the
Boolean test of its compiled `RegExp`. -/
structure Deduplication where
  tag : Option Str := none
  pattern : Option (Str → Bool) := none

/-- The tagging state the `Base` constructor builds (lines 71-73). -/
structure BaseCfg where
  deduplicationTag : Str
  deduplicationTagTest : Str → Bool

/-- Lines 71-73: `(dedupe && dedupe.tag) || this.defaultDeduplicationTag()`
and likewise for the pattern, then `new RegExp(pattern)`. -/
def mkBaseCfg (dedupe : Option Deduplication) : BaseCfg :=
  { deduplicationTag := (dedupe.bind (fun d => d.tag)).getD defaultDeduplicationTag
    deduplicationTagTest :=
      (dedupe.bind (fun d => d.pattern)).getD defaultDeduplicationTagTest }

/-- A `Base` constructed with no deduplication override. -/
def defaultCfg : BaseCfg := mkBaseCfg none

/-- `tagMatrixMessage` (line 628): `text + this.deduplicationTag`. -/
def tagMatrixMessage (cfg : BaseCfg) (text : Str) : Str :=
  text ++ cfg.deduplicationTag

/-- `isTaggedMatrixMessage` (line 631): `this.deduplicationTagRegex.test(text)`. -/
def isTaggedMatrixMessage (cfg : BaseCfg) (text : Str) : Bool :=
  cfg.deduplicationTagTest text

/-- Modelled from the spec: `autoTagger` is imported from `./utils`, a file
of this repository that is not under `src/`.  Section 4.5 of the spec fixes
its contract: "every send performed by this system — status notices and
relayed messages alike — passes through `tag`", so the tagger returned by
`autoTagger(senderId, this)` applies `tagMatrixMessage` to the outgoing
text. -/
def autoTagger (cfg : BaseCfg) (_senderId : Option Str) (text : Str) : Str :=
  tagMatrixMessage cfg text

/-! ## Data model -/

/-- JavaScript truthiness of an optional string: `undefined` and `""` are
falsy. -/
def truthyStr : Option Str → Option Str
  | some s => if s.isEmpty then none else some s
  | none => none

/-- `!x` for an optional string (used for `if (!payload.senderName)`). -/
def strFalsy : Option Str → Bool
  | none => true
  | some s => s.isEmpty

/-- `ThirdPartyMessagePayload` (fields read in lines 516-531). -/
structure ThirdPartyMessagePayload where
  roomId : Str
  senderId : Option Str := none
  senderName : Option Str := none
  avatarUrl : Option Str := none
  text : Str := []
  html : Option Str := none
deriving DecidableEq

/-- `ThirdPartyImageMessagePayload` (fields read in lines 454-473). -/
structure ThirdPartyImageMessagePayload where
  roomId : Str
  senderId : Option Str := none
  senderName : Option Str := none
  avatarUrl : Option Str := none
  text : Str := []
  url : Option Str := none
  path : Option Str := none
  buffer : Option (List Nat) := none
  h : Option Nat := none
  w : Option Nat := none
  mimetype : Option Str := none
deriving DecidableEq

/-- The `content.msgtype` of a home-network room-message event. -/
inductive MsgType where
  | mText
  | mImage
  | mOther (s : Str)
deriving DecidableEq

/-- A home-network `m.room.message` event as destructured in line 565 and
the image branch (lines 597-608). -/
structure MatrixEvent where
  room_id : String
  sender : String
  body : Str
  msgtype : MsgType
  contentUrl : Str := []
  infoMimetype : Str := []
  infoW : Option Nat := none
  infoH : Option Nat := none
  infoSize : Option Nat := none
deriving DecidableEq

/-- The image descriptor handed to `adapter.sendImageMessage`
(lines 602-608). -/
structure ImageDescr where
  url : Str
  text : Str
  mimetype : Str
  width : Option Nat
  height : Option Nat
  size : Option Nat
deriving DecidableEq

/-- One argument of a `sendStatusMsg(options, ...args)` call, carried
structurally (the source formats them into one string with
`util.inspect`). -/
inductive StatusArg where
  | errArg (e : Err)
  | textPayloadArg (p : ThirdPartyMessagePayload)
  | imagePayloadArg (p : ThirdPartyImageMessagePayload)
  | eventArg (ev : MatrixEvent)
  | msgArg (s : Str)
deriving DecidableEq

/-- Network/adapter operations a run can perform, in order. -/
inductive Effect where
  /-- `getOrCreateMatrixRoomFromThirdPartyRoomId` entered for this (already
  codec-encoded) third-party room id. -/
  | resolveRoom (encodedThirdPartyRoomId : Str)
  /-- `puppetClient.getRoomIdForAlias` on the derived alias local part. -/
  | lookupAlias (aliasLocalPart : Str)
  /-- `botIntent.createRoom` with this `room_alias_name`. -/
  | createRoom (aliasLocalPart : Str)
  /-- room avatar fetched and assigned at creation (`setRoomAvatar`). -/
  | setRoomAvatarFx (matrixRoomId : String)
  /-- `puppetClient.joinRoom`. -/
  | joinPuppet (matrixRoomId : String)
  /-- `botIntent.setPowerLevel(room, puppet, 100)`. -/
  | grantPower (matrixRoomId : String)
  /-- `botClient.deleteAlias` on the derived alias (repair path). -/
  | deleteAliasFx (aliasLocalPart : Str)
  /-- `this.thirdPartyRooms[matrixRoomId] = thirdPartyRoomId` (line 419). -/
  | recordRoom (matrixRoomId : String) (encodedThirdPartyRoomId : Str)
  /-- `botIntent.leave(matrixRoomId)` (line 420). -/
  | botLeave (matrixRoomId : String)
  /-- ghost profile sync chain of `getIntentFromThirdPartySenderId`. -/
  | ghostSetup (encodedSenderId : Str) (senderName : Option Str) (avatarUrl : Option Str)
  /-- ghost intent joins a room. -/
  | ghostJoin (matrixRoomId : String)
  /-- `getStatusRoomId` resolution performed. -/
  | statusRoomResolve
  /-- a `sendStatusMsg(options, ...args)` invocation with these args. -/
  | statusMsgCall (args : List StatusArg)
  /-- the application-service bot joins a room (queued in `sendStatusMsg`). -/
  | botJoin (matrixRoomId : String)
  /-- a text/notice message sent into the home network. -/
  | homeSend (matrixRoomId : String) (body : Str)
  /-- an image message sent into the home network with its caption. -/
  | homeSendImage (matrixRoomId : String) (contentUri : String) (caption : Str)
  /-- `download.getBufferAndType(url)` started. -/
  | downloadStart (url : Str)
  /-- `fs.readFile(path)` started. -/
  | readFileStart (path : Str)
  /-- an upload to the content store. -/
  | uploadContent
  /-- `client.getProfileInfo(_, 'avatar_url')`. -/
  | getProfileAvatar
  /-- `ghostIntent.setAvatarUrl(contentUri)`. -/
  | setAvatarUrlFx (contentUri : String)
  /-- `adapter.sendMessage(thirdPartyRoomId, text)`. -/
  | adapterSendMessage (thirdPartyRoomId : Str) (body : Str)
  /-- `adapter.sendImageMessage(thirdPartyRoomId, image)`. -/
  | adapterSendImage (thirdPartyRoomId : Str) (img : ImageDescr)
  /-- `adapter.handleMatrixUserBangCommand(bc, data)`. -/
  | adapterBangCommand
  /-- `adapter.sendReadReceipt(thirdPartyRoomId)`. -/
  | adapterReadReceipt (thirdPartyRoomId : Str)
deriving DecidableEq

/-- Settlement of the promise a handler returns to its caller. -/
inductive Outcome where
  | resolved
  | raised (e : Err)
deriving DecidableEq

/-- The `TypeError` thrown when the `promise` variable holds a promise
object rather than a thunk and is invoked as `promise()` (image handler,
line 497 reached from the `path` and missing-source branches). -/
def promiseNotAFunction : Err := "TypeError: promise is not a function"

/-! ## sendStatusMsg, `base.ts` lines 193-252

`sendStatusMsg` resolves the status room, then pushes two closures (bot
join; tagged notice send) onto `promiseList` and returns
`Promise.all(promiseList)`.  `Promise.all` receives the closure values
themselves; a function is not a thenable, so it is treated as an
already-settled value and is never invoked: neither queued operation
ever runs. -/

/-- Coarse model of the `util.inspect`-based rendering in the
`args.reduce` of lines 202-209 (nothing proved depends on it: the
rendered text only feeds the never-executed queued send). -/
def inspectStatusArg : StatusArg → Str
  | .errArg e => e.toList
  | .msgArg s => s
  | .textPayloadArg p => p.text
  | .imagePayloadArg p => p.text
  | .eventArg ev => ev.body

/-- The `msgText` accumulated by the reduce (space-separated). -/
def formatStatusArgs (args : List StatusArg) : Str :=
  List.intercalate [' '] (args.map inspectStatusArg)

/-- The body the second queued closure would send (line 231):
`this.tagMatrixMessage(msgText)`. -/
def sendStatusMsgQueuedBody (cfg : BaseCfg) (args : List StatusArg) : Str :=
  tagMatrixMessage cfg (formatStatusArgs args)

/-- The effects of the two closures pushed onto `promiseList`; they are
queued but never performed, because `Promise.all` never calls them. -/
def sendStatusMsgQueuedEffects (cfg : BaseCfg) (statusRoomId : String)
    (args : List StatusArg) : List (List Effect) :=
  [[Effect.botJoin statusRoomId],
   [Effect.homeSend statusRoomId (sendStatusMsgQueuedBody cfg args)]]

/-- `sendStatusMsg(options, ...args)`: resolve the status room (the
`getStatusRoomId` outcome is the `statusRoomId` argument), queue the two
closures, and resolve.  No message is sent.  Rejects only when
`getStatusRoomId` rejects. -/
def sendStatusMsg (statusRoomId : Except Err String) (args : List StatusArg) :
    List Effect × Outcome :=
  match statusRoomId with
  | .error e => ([Effect.statusMsgCall args, Effect.statusRoomResolve], .raised e)
  | .ok _ => ([Effect.statusMsgCall args, Effect.statusRoomResolve], .resolved)

/-! ## Alias derivation and reverse resolution, `base.ts` lines 254-274 -/

/-- `getRoomAliasLocalPartFromThirdPartyRoomId` (line 272):
`network + "_puppet_" + identityPair.id + "_" + id`. -/
def getRoomAliasLocalPartFromThirdPartyRoomId (network pid id : Str) : Str :=
  network ++ "_puppet_".toList ++ pid ++ ['_'] ++ id

/-- A character of the class `[a-zA-Z0-9+\/=_]` in the reverse-resolution
pattern (line 263). -/
def b64TokenChar (c : Char) : Bool :=
  c.isAlphanum || c == '+' || c == '/' || c == '=' || c == '_'

/-- Matching one alias against
`^#network_puppet_id_([a-zA-Z0-9+\/=_]+)$` after `alias.split(':')[0]`
(lines 263-269); returns the captured token.  `network` and `pid` are
taken literally (their characters contain no regex metacharacters in any
deployed configuration). -/
def aliasMatchToken (network pid : Str) (alias' : Str) : Option Str :=
  let localpart := alias'.takeWhile (fun c => c != ':')
  let pre := ['#'] ++ network ++ "_puppet_".toList ++ pid ++ ['_']
  if pre.isPrefixOf localpart then
    let rest := localpart.drop pre.length
    if !rest.isEmpty && rest.all b64TokenChar then some rest else none
  else none

/-- `getThirdPartyRoomIdFromMatrixRoomId` (lines 262-271): reduce over the
room's aliases, a later match overriding an earlier result, `null` when
nothing matches. -/
def getThirdPartyRoomIdFromMatrixRoomId (network pid : Str)
    (aliases : List Str) : Option Str :=
  aliases.foldl
    (fun result a =>
      match aliasMatchToken network pid a with
      | some t => some t
      | none => result)
    none

/-! ## Room lifecycle, `base.ts` lines 352-423

`getOrCreateMatrixRoomFromThirdPartyRoomId` is recursive: a join failing
with `'No known servers'` deletes the alias and re-enters the whole
function.  The remote directory's answers for the successive entries are
supplied as a list of `RoomAttempt`s; the recursion consumes one per
entry, so exhausting the list models the otherwise-unbounded recursion. -/

/-- The result of a puppet `joinRoom` call. -/
inductive JoinOutcome where
  | ok
  /-- rejection with `err.message === 'No known servers'` (line 407). -/
  | noKnownServers
  /-- any other rejection: logged and swallowed (line 414). -/
  | otherError (msg : Err)
deriving DecidableEq

/-- The directory's behaviour for one entry of
`getOrCreateMatrixRoomFromThirdPartyRoomId`. -/
structure RoomAttempt where
  /-- `getRoomIdForAlias`: `some room_id`, or `none` for the rejection that
  routes to the creation branch. -/
  lookup : Option String
  /-- `avatarUrl` of `adapter.getRoomData` when the creation branch runs. -/
  roomAvatarUrl : Option Str := none
  /-- the `room_id` returned by `botIntent.createRoom`. -/
  created : String := ""
  /-- the puppet `joinRoom` result for the room of this entry. -/
  join : JoinOutcome
deriving DecidableEq

/-- The room id this entry resolves before the join step. -/
def attemptRoomId (a : RoomAttempt) : String := a.lookup.getD a.created

/-- `getOrCreateMatrixRoomFromThirdPartyRoomId(thirdPartyRoomId)`
(lines 352-423).  Per entry: alias lookup; on miss, room creation (with
optional avatar assignment); puppet join; on join success a power grant
whose failure is swallowed (lines 361-371); on `'No known servers'` the
alias is deleted and the function re-enters (lines 407-412); on any other
join error the room id is returned without a grant (line 415).  Every
successfully returned room id additionally passes each active frame's
final `.then`, which records the room mapping and makes the bot leave
(lines 418-421). -/
def getOrCreateMatrixRoomFromThirdPartyRoomId (network pid tpid : Str) :
    List RoomAttempt → List Effect × Except Err String
  | [] => ([], .error "unbounded recursion: no further directory answers supplied")
  | a :: rest =>
    let aliasLP := getRoomAliasLocalPartFromThirdPartyRoomId network pid tpid
    let (frontFx, roomId) :=
      match a.lookup with
      | some r => ([Effect.lookupAlias aliasLP], r)
      | none =>
        match a.roomAvatarUrl with
        | some _ => ([Effect.lookupAlias aliasLP, Effect.createRoom aliasLP,
                      Effect.setRoomAvatarFx a.created], a.created)
        | none => ([Effect.lookupAlias aliasLP, Effect.createRoom aliasLP], a.created)
    match a.join with
    | .ok =>
        (frontFx ++ [Effect.joinPuppet roomId, Effect.grantPower roomId,
                     Effect.recordRoom roomId tpid, Effect.botLeave roomId],
         .ok roomId)
    | .otherError _ =>
        (frontFx ++ [Effect.joinPuppet roomId,
                     Effect.recordRoom roomId tpid, Effect.botLeave roomId],
         .ok roomId)
    | .noKnownServers =>
        let (recFx, res) := getOrCreateMatrixRoomFromThirdPartyRoomId network pid tpid rest
        let tailFx :=
          match res with
          | .ok r => [Effect.recordRoom r tpid, Effect.botLeave r]
          | .error _ => []
        (frontFx ++ [Effect.joinPuppet roomId, Effect.deleteAliasFx aliasLP] ++
           recFx ++ tailFx,
         res)

/-! ## Inbound relay pipeline, `base.ts` lines 425-552 -/

/-- Outcomes of the asynchronous calls an inbound relay run can make; one
field per operation, holding that call's settlement. -/
structure RelayEnv where
  /-- outcome of `getOrCreateMatrixRoomFromThirdPartyRoomId`. -/
  resolveRoom : Except Err String
  /-- outcome of `getStatusRoomId`. -/
  statusRoomId : Except Err String
  /-- outcome of the ghost display-name/avatar sync
  (`getIntentFromThirdPartySenderId`). -/
  ghostProfile : Except Err Unit
  /-- outcome of the ghost's join to the status room. -/
  ghostJoinStatus : Except Err Unit
  /-- outcome of the ghost's join to the destination room. -/
  ghostJoinRoom : Except Err Unit
  /-- outcome of `download.getBufferAndType`. -/
  download : Except Err Unit
  /-- outcome of `fs.readFile`. -/
  readFile : Except Err Unit
  /-- outcome of the content-store upload: content uri and size
  (`createUploader` is `./utils` repository code not under `src/`;
  modelled from the spec: "upload to content store, then send an image
  message carrying the resulting content reference"). -/
  upload : Except Err (String × Nat)
  /-- outcome of the ghost/puppet client send. -/
  homeSendResult : Except Err Unit

/-- `PrepareMessageHandlerParams` (lines 37-43). -/
structure PrepareMessageHandlerParams where
  senderId : Option Str
  senderName : Option Str
  avatarUrl : Option Str
  roomId : Str
  text : Str

/-- `MessageHandler` (lines 45-50); `client` is the puppet's own client
when `viaGhost` is `none`, else the ghost's. -/
structure MessageHandler where
  matrixRoomId : String
  viaGhost : Option Str
  ignore : Bool

/-- `prepareMessageHandler` (lines 425-449): resolve the destination room;
for a self-originated payload (`senderId === undefined`) build a handler on
the puppet client, marked `ignore` when the text already carries the
deduplication tag; otherwise provision the ghost, join it to the status
room and then to the destination room. -/
def prepareMessageHandler (cfg : BaseCfg) (env : RelayEnv)
    (p : PrepareMessageHandlerParams) : List Effect × Except Err MessageHandler :=
  let fx0 := [Effect.resolveRoom p.roomId]
  match env.resolveRoom with
  | .error e => (fx0, .error e)
  | .ok matrixRoomId =>
    match p.senderId with
    | none =>
        (fx0, .ok { matrixRoomId := matrixRoomId, viaGhost := none,
                    ignore := isTaggedMatrixMessage cfg p.text })
    | some sid =>
      let fx1 := fx0 ++ [Effect.ghostSetup sid p.senderName p.avatarUrl]
      match env.ghostProfile with
      | .error e => (fx1, .error e)
      | .ok _ =>
        let fx2 := fx1 ++ [Effect.statusRoomResolve]
        match env.statusRoomId with
        | .error e => (fx2, .error e)
        | .ok statusRoomId =>
          let fx3 := fx2 ++ [Effect.ghostJoin statusRoomId]
          match env.ghostJoinStatus with
          | .error e => (fx3, .error e)
          | .ok _ =>
            let fx4 := fx3 ++ [Effect.ghostJoin matrixRoomId]
            match env.ghostJoinRoom with
            | .error e => (fx4, .error e)
            | .ok _ =>
                (fx4, .ok { matrixRoomId := matrixRoomId, viaGhost := some sid,
                            ignore := false })

/-- The in-place payload mutation at the top of
`handleThirdPartyRoomMessage` (lines 518-524): encode a truthy `senderId`,
then default a falsy `senderName` to the *encoded* id; encode `roomId`. -/
def mutateTextPayload (p : ThirdPartyMessagePayload) : ThirdPartyMessagePayload :=
  let (senderId, senderName) :=
    match p.senderId with
    | some sid =>
        if sid.isEmpty then (some sid, p.senderName)
        else
          let enc := a2bStr sid
          (some enc, if strFalsy p.senderName then some enc else p.senderName)
    | none => (none, p.senderName)
  { p with senderId := senderId, senderName := senderName, roomId := a2bStr p.roomId }

/-- The in-place payload mutation at the top of
`handleThirdPartyRoomImageMessage` (lines 456-462): default a falsy
`senderName` to the *raw* id first, then encode `senderId`; encode
`roomId`. -/
def mutateImagePayload (p : ThirdPartyImageMessagePayload) :
    ThirdPartyImageMessagePayload :=
  let (senderId, senderName) :=
    match p.senderId with
    | some sid =>
        if sid.isEmpty then (some sid, p.senderName)
        else (some (a2bStr sid),
              if strFalsy p.senderName then some sid else p.senderName)
    | none => (none, p.senderName)
  { p with senderId := senderId, senderName := senderName, roomId := a2bStr p.roomId }

/-- `handleThirdPartyRoomMessage` (lines 516-552).  The whole chain is
wrapped in a final `.catch` that logs and invokes
`this.sendStatusMsg({}, err, payload)` without returning it, so the
method's promise always resolves.  The `html` variant only changes the
formatted body; the plain `body` is `tag(text)` either way. -/
def handleThirdPartyRoomMessage (cfg : BaseCfg) (env : RelayEnv)
    (p : ThirdPartyMessagePayload) : List Effect × Outcome :=
  let q := mutateTextPayload p
  let prep : PrepareMessageHandlerParams :=
    { senderId := q.senderId, senderName := q.senderName,
      avatarUrl := q.avatarUrl, roomId := q.roomId, text := q.text }
  match prepareMessageHandler cfg env prep with
  | (fx, .error e) =>
      (fx ++ (sendStatusMsg env.statusRoomId [.errArg e, .textPayloadArg q]).1,
       .resolved)
  | (fx, .ok handler) =>
    if handler.ignore then (fx, .resolved)
    else
      let body := autoTagger cfg prep.senderId q.text
      match env.homeSendResult with
      | .ok _ => (fx ++ [Effect.homeSend handler.matrixRoomId body], .resolved)
      | .error e =>
          (fx ++ [Effect.homeSend handler.matrixRoomId body] ++
             (sendStatusMsg env.statusRoomId [.errArg e, .textPayloadArg q]).1,
           .resolved)

/-- `handleThirdPartyRoomImageMessage` (lines 454-512).  There is no outer
`.catch`: a `prepareMessageHandler` rejection propagates to the caller.
The `promise` variable is a thunk in the `url` and `buffer` branches; in
the `path` branch it is assigned `fs.readFile(path).then(() => upload(buffer))`
— an already-running promise (whose read/upload chain proceeds detached) —
and in the no-source branch `Promise.reject(...)`; invoking either as
`promise()` throws a `TypeError` inside the `.then` callback, rejecting the
returned promise.  The `promise().then(onOk, onErr)` chain itself is not
returned, so its own failures (upload rejection handled by the fallback
send; a send rejection unhandled) never reach the caller. -/
def handleThirdPartyRoomImageMessage (cfg : BaseCfg) (env : RelayEnv)
    (p : ThirdPartyImageMessagePayload) : List Effect × Outcome :=
  let q := mutateImagePayload p
  let prep : PrepareMessageHandlerParams :=
    { senderId := q.senderId, senderName := q.senderName,
      avatarUrl := q.avatarUrl, roomId := q.roomId, text := q.text }
  match prepareMessageHandler cfg env prep with
  | (fx, .error e) => (fx, .raised e)
  | (fx, .ok handler) =>
    if handler.ignore then (fx, .resolved)
    else
      let msgBody := autoTagger cfg prep.senderId q.text
      let fallbackBody :=
        autoTagger cfg prep.senderId ((truthyStr q.url).getD ((truthyStr q.path).getD q.text))
      match truthyStr q.url with
      | some u =>
        -- thunk: download, upload, then image send; upload-chain failure
        -- falls back to a tagged text message (lines 481-486, 497-510)
        (match env.download with
         | .error _ =>
             (fx ++ [Effect.downloadStart u,
                     Effect.homeSend handler.matrixRoomId fallbackBody], .resolved)
         | .ok _ =>
           match env.upload with
           | .error _ =>
               (fx ++ [Effect.downloadStart u, Effect.uploadContent,
                       Effect.homeSend handler.matrixRoomId fallbackBody], .resolved)
           | .ok (uri, _) =>
               (fx ++ [Effect.downloadStart u, Effect.uploadContent,
                       Effect.homeSendImage handler.matrixRoomId uri msgBody],
                .resolved))
      | none =>
        match truthyStr q.path with
        | some pa =>
          -- `promise` holds the running readFile promise (which uploads
          -- `payload.buffer`, not the read bytes, when the read succeeds);
          -- `promise()` then throws (lines 487-490, 497)
          (match env.readFile with
           | .error _ => (fx ++ [Effect.readFileStart pa], .raised promiseNotAFunction)
           | .ok _ => (fx ++ [Effect.readFileStart pa, Effect.uploadContent],
                       .raised promiseNotAFunction))
        | none =>
          match q.buffer with
          | some _ =>
            (match env.upload with
             | .error _ =>
                 (fx ++ [Effect.uploadContent,
                         Effect.homeSend handler.matrixRoomId fallbackBody], .resolved)
             | .ok (uri, _) =>
                 (fx ++ [Effect.uploadContent,
                         Effect.homeSendImage handler.matrixRoomId uri msgBody],
                  .resolved))
          | none =>
              -- `promise = Promise.reject(new Error('missing url or path'))`,
              -- also not a function (line 494, 497)
              (fx, .raised promiseNotAFunction)

/-! ## Outbound relay, `base.ts` lines 564-620 -/

/-- Ambient state an outbound dispatch reads. -/
structure OutboundEnv where
  /-- `this.puppet.userId`. -/
  puppetUserId : String
  network : Str
  identityPairId : Str
  /-- `room.getAliases()` of the event's room in the puppet client. -/
  roomAliases : List Str
  /-- `mxcUrlToHttp` of the puppet client. -/
  mxcToHttp : Str → Str
  /-- whether `this.adapter.handleMatrixUserBangCommand` is defined. -/
  adapterHasBang : Bool
  /-- whether `parseBangCommand(body)` (external package
  `matrix-puppet-bridge`) yields a command for this body. -/
  parseBang : Str → Bool
  /-- outcome of `adapter.handleMatrixUserBangCommand`. -/
  bangResult : Except Err Unit
  /-- outcome of `adapter.sendMessage` / `adapter.sendImageMessage`. -/
  adapterSendResult : Except Err Unit
  /-- outcome of `getStatusRoomId` (for `sendStatusMsg`). -/
  statusRoomId : Except Err String

/-- The error message of line 612 for an unhandled msgtype. -/
def errUnknownMsgtype (m : MsgType) : Err :=
  match m with
  | .mOther s => String.mk ("dont know how to handle this msgtype ".toList ++ s)
  | _ => "dont know how to handle this msgtype "

/-- `handleMatrixMessageEvent` (lines 564-620).  An event not sent by the
puppet, or whose body is already tagged, is ignored outright.  Otherwise
the room is reverse-resolved; the status room answers with a (queued,
never-delivered) fixed notice; a bang command is dispatched directly and
*without* the final catch; other text/image content goes to the adapter,
any failure being routed to `sendStatusMsg` by the final catch, which
swallows it. -/
def handleMatrixMessageEvent (cfg : BaseCfg) (env : OutboundEnv)
    (ev : MatrixEvent) : List Effect × Outcome :=
  if env.puppetUserId != ev.sender || isTaggedMatrixMessage cfg ev.body then
    ([], .resolved)
  else
    match getThirdPartyRoomIdFromMatrixRoomId env.network env.identityPairId
        env.roomAliases with
    | none =>
        ((sendStatusMsg env.statusRoomId
            [.errArg "could not determine third party room id!", .eventArg ev]).1,
         .resolved)
    | some thirdPartyRoomId =>
      if thirdPartyRoomId = "status_room".toList then
        let msg := tagMatrixMessage cfg "Commands are currently ignored here".toList
        ((sendStatusMsg env.statusRoomId [.msgArg msg]).1, .resolved)
      else
        let msg := tagMatrixMessage cfg ev.body
        match ev.msgtype with
        | .mText =>
          if env.adapterHasBang && env.parseBang ev.body then
            ([Effect.adapterBangCommand],
             match env.bangResult with
             | .ok _ => .resolved
             | .error e => .raised e)
          else
            (match env.adapterSendResult with
             | .ok _ =>
                 ([Effect.adapterSendMessage (b2aStr thirdPartyRoomId) msg], .resolved)
             | .error e =>
                 ([Effect.adapterSendMessage (b2aStr thirdPartyRoomId) msg] ++
                    (sendStatusMsg env.statusRoomId [.errArg e, .eventArg ev]).1,
                  .resolved))
        | .mImage =>
          let img : ImageDescr :=
            { url := env.mxcToHttp ev.contentUrl,
              text := tagMatrixMessage cfg ev.body,
              mimetype := ev.infoMimetype,
              width := ev.infoW, height := ev.infoH, size := ev.infoSize }
          (match env.adapterSendResult with
           | .ok _ =>
               ([Effect.adapterSendImage (b2aStr thirdPartyRoomId) img], .resolved)
           | .error e =>
               ([Effect.adapterSendImage (b2aStr thirdPartyRoomId) img] ++
                  (sendStatusMsg env.statusRoomId [.errArg e, .eventArg ev]).1,
                .resolved))
        | .mOther m =>
            ((sendStatusMsg env.statusRoomId
                [.errArg (errUnknownMsgtype (.mOther m)), .eventArg ev]).1,
             .resolved)

/-! ## Ghost avatar synchronizer, `base.ts` lines 648-671 -/

/-- State and call outcomes `setGhostAvatar` reads. -/
structure AvatarEnv where
  /-- the ghost profile's current `avatar_url`. -/
  currentAvatarUrl : Option Str
  /-- outcome of `download.getBufferAndType(avatarUrl)`. -/
  download : Except Err Unit
  /-- outcome of `client.uploadContent`: the content uri. -/
  upload : Except Err String

/-- `setGhostAvatar(ghostIntent, avatarUrl)`: read the profile's
`avatar_url`; when truthy, refuse to overwrite and stop; otherwise
download, upload and assign. -/
def setGhostAvatar (env : AvatarEnv) (avatarUrl : Str) : List Effect × Outcome :=
  match truthyStr env.currentAvatarUrl with
  | some _ => ([Effect.getProfileAvatar], .resolved)
  | none =>
    match env.download with
    | .error e => ([Effect.getProfileAvatar, Effect.downloadStart avatarUrl], .raised e)
    | .ok _ =>
      match env.upload with
      | .error e =>
          ([Effect.getProfileAvatar, Effect.downloadStart avatarUrl,
            Effect.uploadContent], .raised e)
      | .ok uri =>
          ([Effect.getProfileAvatar, Effect.downloadStart avatarUrl,
            Effect.uploadContent, Effect.setAvatarUrlFx uri], .resolved)

/-! ## Puppet read-receipt forwarding (`Puppet.startClient`, second source
file, `Room.receipt` handler) -/

/-- State the `Room.receipt` listener reads. -/
structure ReceiptEnv where
  /-- whether `this.adapter` is set. -/
  adapterSet : Bool
  /-- whether `this.adapter.sendReadReceipt` is defined. -/
  adapterHasSendReadReceipt : Bool
  /-- `this.id`, the operator's own user id. -/
  selfId : String
  /-- `this.thirdPartyRooms`: home room id keyed map to third-party room
  ids, populated only by `saveThirdPartyRoomId`. -/
  thirdPartyRooms : List (String × Str)

/-- First-match association lookup (the `in`/index semantics of the plain
object used as a map). -/
def lookupAssoc (m : List (String × Str)) (k : String) : Option Str :=
  (m.find? (fun kv => kv.1 == k)).map (fun kv => kv.2)

/-- Whether the receipt content records an `m.read` by `selfId` in any
event entry (the two nested `for ... in` loops with
`userId === this.id`). -/
def receiptHasSelfRead (selfId : String) (content : List (String × List String)) : Bool :=
  content.any (fun entry => entry.2.any (fun userId => userId == selfId))

/-- The `Room.receipt` listener: guard on the adapter and its capability;
forward `this.thirdPartyRooms[room.roomId]` to `adapter.sendReadReceipt`
on the first own-account read, and only when the room is a key of the
map. -/
def onRoomReceipt (env : ReceiptEnv) (roomId : String)
    (content : List (String × List String)) : List Effect :=
  if env.adapterSet && env.adapterHasSendReadReceipt then
    match lookupAssoc env.thirdPartyRooms roomId with
    | some tpr =>
        if receiptHasSelfRead env.selfId content then [Effect.adapterReadReceipt tpr]
        else []
    | none => []
  else []

/-! ## Trace predicates used by the claims -/

/-- Calls into the third-party adapter. -/
def isAdapterCall : Effect → Bool
  | .adapterSendMessage _ _ => true
  | .adapterSendImage _ _ => true
  | .adapterBangCommand => true
  | .adapterReadReceipt _ => true
  | _ => false

/-- Message sends into the home network. -/
def isHomeSendFx : Effect → Bool
  | .homeSend _ _ => true
  | .homeSendImage _ _ _ => true
  | _ => false

/-- Download / upload / avatar-assignment operations. -/
def isAvatarWorkFx : Effect → Bool
  | .downloadStart _ => true
  | .uploadContent => true
  | .setAvatarUrlFx _ => true
  | _ => false

/-- Whether a home-network send effect carries a body produced by the
deduplication tagger (the body ends in the configured marker, i.e. lies in
the range of `tagMatrixMessage cfg`); other effects pass vacuously. -/
def taggedSendFx (cfg : BaseCfg) : Effect → Bool
  | .homeSend _ body => cfg.deduplicationTag.isSuffixOf body
  | .homeSendImage _ _ caption => cfg.deduplicationTag.isSuffixOf caption
  | _ => true

/-- Number of `deleteAliasFx` effects (alias-repair retries) in a trace. -/
def deleteAliasCount (fx : List Effect) : Nat :=
  (fx.filter (fun e => match e with | .deleteAliasFx _ => true | _ => false)).length

/-- Number of leading attempts whose join fails with `No known servers`. -/
def leadingNoKnownServers : List RoomAttempt → Nat
  | [] => 0
  | a :: rest =>
    match a.join with
    | .noKnownServers => leadingNoKnownServers rest + 1
    | _ => 0

/-- The first attempt whose join does not fail with `No known servers`. -/
def firstSettledAttempt (attempts : List RoomAttempt) : Option RoomAttempt :=
  attempts.find? (fun a => !(a.join == JoinOutcome.noKnownServers))

/-- A deduplication override whose marker and whose pattern do not agree:
marker `"A"`, pattern `"B$"` (a perfectly legal `RegExp`). -/
def mismatchedDedupe : Deduplication :=
  { tag := some ['A'], pattern := some (fun t => ['B'].isSuffixOf t) }

/-- The `Base` tagging state built from the mismatched override. -/
def mismatchedCfg : BaseCfg := mkBaseCfg (some mismatchedDedupe)

/-! ## Concrete instances used in counterexamples and witnesses -/

/-- A relay environment in which every network call succeeds. -/
def relayEnvOk : RelayEnv :=
  { resolveRoom := .ok "!m:hs", statusRoomId := .ok "!s:hs",
    ghostProfile := .ok (), ghostJoinStatus := .ok (), ghostJoinRoom := .ok (),
    download := .ok (), readFile := .ok (), upload := .ok ("mxc://u", 5),
    homeSendResult := .ok () }

/-- A relay environment in which the destination-room resolution rejects. -/
def relayEnvResolveFails : RelayEnv :=
  { relayEnvOk with resolveRoom := .error "M_UNKNOWN: could not create room" }

/-- A body already carrying the default deduplication marker. -/
def taggedText : Str := "hello".toList ++ defaultDeduplicationTag

/-- A self-originated text payload whose body already carries the tag. -/
def selfTaggedTextPayload : ThirdPartyMessagePayload :=
  { roomId := "r1".toList, text := taggedText }

/-- A self-originated image payload whose text already carries the tag. -/
def selfTaggedImagePayload : ThirdPartyImageMessagePayload :=
  { roomId := "r1".toList, text := taggedText, url := some "http://img".toList }

/-- A ghost-originated image payload with a remote url. -/
def imagePayloadUrl : ThirdPartyImageMessagePayload :=
  { roomId := "r1".toList, senderId := some "alice".toList,
    text := "pic".toList, url := some "http://img".toList }

/-- A self-originated image payload supplying only a local path. -/
def imagePayloadPath : ThirdPartyImageMessagePayload :=
  { roomId := "r1".toList, text := "pic".toList, path := some "/tmp/img.png".toList }

/-- A plain text payload. -/
def textPayloadPlain : ThirdPartyMessagePayload :=
  { roomId := "r1".toList, text := "hi".toList }

/-- An outbound environment whose event room reverse-resolves to the
reserved `status_room` id. -/
def outboundEnvStatus : OutboundEnv :=
  { puppetUserId := "@me:hs", network := "net".toList, identityPairId := "p1".toList,
    roomAliases := ["#net_puppet_p1_status_room:hs".toList],
    mxcToHttp := fun s => s, adapterHasBang := true, parseBang := fun _ => true,
    bangResult := .ok (), adapterSendResult := .ok (), statusRoomId := .ok "!status:hs" }

/-- An untagged `m.text` event from the puppet account. -/
def statusRoomEvent : MatrixEvent :=
  { room_id := "!abc:hs", sender := "@me:hs", body := "hello".toList, msgtype := .mText }

/-- The same event with a body that already carries the default marker. -/
def taggedBodyEvent : MatrixEvent :=
  { room_id := "!abc:hs", sender := "@me:hs", body := taggedText, msgtype := .mText }

/-- An avatar environment in which the ghost's avatar is already set. -/
def avatarEnvSet : AvatarEnv :=
  { currentAvatarUrl := some "mxc://old".toList, download := .ok (),
    upload := .ok "mxc://new" }

/-- A receipt environment with one mapped room. -/
def receiptEnvW : ReceiptEnv :=
  { adapterSet := true, adapterHasSendReadReceipt := true, selfId := "@me:hs",
    thirdPartyRooms := [("!m:hs", "tp1".toList)] }

/-- Receipt content recording an own-account read. -/
def receiptContentW : List (String × List String) := [("evt1", ["@me:hs"])]

/-- A directory answer whose join fails with `No known servers`. -/
def nksAttempt (r : String) : RoomAttempt :=
  { lookup := none, created := r, join := .noKnownServers }

/-- A directory answer whose join succeeds. -/
def okAttempt (r : String) : RoomAttempt :=
  { lookup := none, created := r, join := .ok }

/-! # Theorems -/

/-- The base64 alphabet map and its inverse cancel on every sextet. -/
theorem sextetIndex_sextetChar : ∀ n, n < 64 → sextetIndex (sextetChar n) = n := by
  decide

/-- No alphabet character is the padding character. -/
theorem sextetChar_ne_eq : ∀ n, n < 64 → sextetChar n ≠ '=' := by
  decide

/-- Base64 decoding inverts base64 encoding on genuine byte strings. -/
theorem b64decodeRaw_b64encode (x : List Nat) (hx : ∀ b ∈ x, b < 256) :
    b64decodeRaw (b64encode x) = x := by
  induction x using b64encode.induct with
  | case1 => rfl
  | case2 b0 =>
    have h0 : b0 < 256 := hx b0 (by simp)
    simp only [b64encode, b64decodeRaw]
    rw [sextetIndex_sextetChar _ (by omega), sextetIndex_sextetChar _ (by omega)]
    simp only [if_true, List.cons.injEq, and_true]
    omega
  | case3 b0 b1 =>
    have h0 : b0 < 256 := hx b0 (by simp)
    have h1 : b1 < 256 := hx b1 (by simp)
    simp only [b64encode, b64decodeRaw]
    rw [if_neg (sextetChar_ne_eq _ (by omega))]
    rw [sextetIndex_sextetChar _ (by omega), sextetIndex_sextetChar _ (by omega),
        sextetIndex_sextetChar _ (by omega)]
    simp only [if_true, List.cons.injEq, and_true]
    constructor <;> omega
  | case4 b0 b1 b2 rest ih =>
    have h0 : b0 < 256 := hx b0 (by simp)
    have h1 : b1 < 256 := hx b1 (by simp)
    have h2 : b2 < 256 := hx b2 (by simp)
    have hrest : ∀ b ∈ rest, b < 256 := fun b hb => hx b (by simp [hb])
    simp only [b64encode, b64decodeRaw]
    rw [if_neg (sextetChar_ne_eq _ (by omega)), if_neg (sextetChar_ne_eq _ (by omega))]
    rw [sextetIndex_sextetChar _ (by omega), sextetIndex_sextetChar _ (by omega),
        sextetIndex_sextetChar _ (by omega), sextetIndex_sextetChar _ (by omega)]
    rw [ih hrest]
    simp only [List.cons.injEq, and_true]
    refine ⟨by omega, by omega, by omega⟩

/-- Masking to 7 bits is the identity on ASCII-range bytes. -/
theorem map_mod128_id (x : List Nat) (hx : ∀ b ∈ x, b < 128) :
    x.map (fun b => b % 128) = x := by
  induction x with
  | nil => rfl
  | cons a t ih =>
    have ha : a < 128 := hx a (by simp)
    simp only [List.map_cons, Nat.mod_eq_of_lt ha, List.cons.injEq, true_and]
    exact ih (fun b hb => hx b (by simp [hb]))

/-- C1, counterexample: the claim asserts `decode(encode(x)) == x` for all
byte strings, "not only for ASCII-range inputs"; the byte string `[200]`
refutes it — Node's `'ascii'` decoder in `b2a` masks the decoded byte to
`200 % 128 = 72`. -/
theorem c1_decode_encode_fails_on_high_byte : b2a (a2b [200]) ≠ [200] := by
  decide

/-- C1, amended: decoding the encoding returns the input exactly as far as
the claim's ASCII caveat allows — for every byte string all of whose bytes
are in the ASCII range (`< 128`), `b2a (a2b x) = x`; the base64 layer
itself is lossless on all bytes, and only the final `'ascii'` masking
restricts the range. -/
theorem c1_decode_encode_ascii_roundtrip (x : List Nat) (hx : ∀ b ∈ x, b < 128) :
    b2a (a2b x) = x := by
  unfold b2a a2b
  rw [b64decodeRaw_b64encode x (fun b hb => Nat.lt_trans (hx b hb) (by norm_num))]
  exact map_mod128_id x hx

/-- C1, witness: the amended round trip evaluated on the concrete ASCII
byte string `"hi"` = `[104, 105]`. -/
theorem c1_decode_encode_ascii_roundtrip_witness : b2a (a2b [104, 105]) = [104, 105] :=
  c1_decode_encode_ascii_roundtrip [104, 105] (by decide)

/-- C2, counterexample: the claim quantifies over every tag/pattern
configuration of an identity pair, but the marker and its pattern are
independent overrides; with marker `"A"` and pattern `"B$"` the tagged
text `"xA"` does not match the pattern, so `isTagged(tag("x"))` is
`false`. -/
theorem c2_mismatched_override_breaks_tag_detection :
    isTaggedMatrixMessage mismatchedCfg (tagMatrixMessage mismatchedCfg ['x']) = false := by
  rfl

/-- C2, amended: with the default deduplication tag and pattern (no
override), `isTagged(tag(text))` is true for every text, and `isTagged`
accepts exactly the range of `tag` — the texts ending in the marker; a
configuration overriding tag and pattern independently need not satisfy
this. -/
theorem c2_default_tagger_accepts_exactly_its_range :
    (∀ t : Str, isTaggedMatrixMessage defaultCfg (tagMatrixMessage defaultCfg t) = true) ∧
    (∀ t : Str, isTaggedMatrixMessage defaultCfg t = true ↔
       ∃ s, t = tagMatrixMessage defaultCfg s) := by
  have hshow : ∀ t : Str, isTaggedMatrixMessage defaultCfg t =
      defaultDeduplicationTag.isSuffixOf t := fun _ => rfl
  have htag : ∀ t : Str, tagMatrixMessage defaultCfg t = t ++ defaultDeduplicationTag :=
    fun _ => rfl
  constructor
  · intro t
    rw [hshow, htag, List.isSuffixOf_iff_suffix]
    exact List.suffix_append _ _
  · intro t
    constructor
    · intro h
      rw [hshow, List.isSuffixOf_iff_suffix] at h
      obtain ⟨s, hs⟩ := h
      exact ⟨s, by rw [htag, hs]⟩
    · rintro ⟨s, rfl⟩
      rw [hshow, htag, List.isSuffixOf_iff_suffix]
      exact List.suffix_append _ _

/-- C8: a call to `setGhostAvatar` against a ghost whose avatar is already
set (a truthy `avatar_url` in the profile) performs only the profile read:
no download, no upload, no avatar assignment, and it resolves — so repeated
calls after a successful set are no-ops. -/
theorem c8_existing_ghost_avatar_never_overwritten (env : AvatarEnv) (avatarUrl : Str)
    (hset : (truthyStr env.currentAvatarUrl).isSome = true) :
    setGhostAvatar env avatarUrl = ([Effect.getProfileAvatar], .resolved) ∧
    ∀ e ∈ (setGhostAvatar env avatarUrl).1, isAvatarWorkFx e = false := by
  cases h : truthyStr env.currentAvatarUrl with
  | none => rw [h] at hset; simp at hset
  | some u =>
      have heq : setGhostAvatar env avatarUrl = ([Effect.getProfileAvatar], .resolved) := by
        unfold setGhostAvatar
        rw [h]
      exact ⟨heq, by rw [heq]; simp [isAvatarWorkFx]⟩

/-- C8, witness: the theorem applied to a concrete environment whose ghost
avatar is `mxc://old`. -/
theorem c8_existing_ghost_avatar_never_overwritten_witness :
    setGhostAvatar avatarEnvSet "http://new.png".toList =
      ([Effect.getProfileAvatar], .resolved) ∧
    ∀ e ∈ (setGhostAvatar avatarEnvSet "http://new.png".toList).1,
      isAvatarWorkFx e = false :=
  c8_existing_ghost_avatar_never_overwritten avatarEnvSet "http://new.png".toList
    (by decide)

/-- C9: given a configured adapter exposing `sendReadReceipt` and a receipt
event recording a read by the operator's own account, the listener forwards
to the adapter's read-receipt operation exactly when the event's room is a
key of the room mapping, and forwards nothing otherwise. -/
theorem c9_read_receipt_forwarded_iff_room_mapped (env : ReceiptEnv) (roomId : String)
    (content : List (String × List String))
    (hadapter : env.adapterSet = true) (hrr : env.adapterHasSendReadReceipt = true)
    (hself : receiptHasSelfRead env.selfId content = true) :
    (∀ tpr, lookupAssoc env.thirdPartyRooms roomId = some tpr →
       onRoomReceipt env roomId content = [Effect.adapterReadReceipt tpr]) ∧
    (lookupAssoc env.thirdPartyRooms roomId = none →
       onRoomReceipt env roomId content = []) := by
  constructor
  · intro tpr htpr
    unfold onRoomReceipt
    rw [hadapter, hrr, htpr]
    simp [hself]
  · intro hnone
    unfold onRoomReceipt
    rw [hadapter, hrr, hnone]
    simp

/-- C9, witness: a mapped room forwards its stored third-party room id. -/
theorem c9_read_receipt_forwarded_iff_room_mapped_witness :
    onRoomReceipt receiptEnvW "!m:hs" receiptContentW =
      [Effect.adapterReadReceipt "tp1".toList] :=
  (c9_read_receipt_forwarded_iff_room_mapped receiptEnvW "!m:hs" receiptContentW
    rfl rfl (by decide)).1 "tp1".toList (by decide)

/-- C10: a payload with no `senderId` whose text already carries the
deduplication tag leads, in both inbound handlers, to a run that resolves
the destination room first and then sends nothing at all — the prepared
handler is marked `ignore` and the pipeline returns. -/
theorem c10_selforigin_tagged_payload_sends_nothing (cfg : BaseCfg) (env : RelayEnv)
    (p : ThirdPartyMessagePayload) (q : ThirdPartyImageMessagePayload) (r : String)
    (hp : p.senderId = none) (hq : q.senderId = none)
    (hpt : isTaggedMatrixMessage cfg p.text = true)
    (hqt : isTaggedMatrixMessage cfg q.text = true)
    (henv : env.resolveRoom = Except.ok r) :
    handleThirdPartyRoomMessage cfg env p =
      ([Effect.resolveRoom (a2bStr p.roomId)], .resolved) ∧
    handleThirdPartyRoomImageMessage cfg env q =
      ([Effect.resolveRoom (a2bStr q.roomId)], .resolved) := by
  constructor
  · simp [handleThirdPartyRoomMessage, mutateTextPayload, prepareMessageHandler,
      hp, hpt, henv]
  · simp [handleThirdPartyRoomImageMessage, mutateImagePayload, prepareMessageHandler,
      hq, hqt, henv]

/-- C10, witness: the theorem at a concrete tagged self-originated text and
image payload. -/
theorem c10_selforigin_tagged_payload_sends_nothing_witness :
    handleThirdPartyRoomMessage defaultCfg relayEnvOk selfTaggedTextPayload =
      ([Effect.resolveRoom (a2bStr selfTaggedTextPayload.roomId)], .resolved) ∧
    handleThirdPartyRoomImageMessage defaultCfg relayEnvOk selfTaggedImagePayload =
      ([Effect.resolveRoom (a2bStr selfTaggedImagePayload.roomId)], .resolved) :=
  c10_selforigin_tagged_payload_sends_nothing defaultCfg relayEnvOk
    selfTaggedTextPayload selfTaggedImagePayload "!m:hs"
    rfl rfl (by decide) (by decide) rfl

/-- C3: evaluation of `handleMatrixMessageEvent` on an untagged puppet-sent
`m.text` event whose room reverse-resolves to the reserved `status_room`
id.  No adapter operation (send, image send, or bang-command dispatch) is
performed — but, against the claim's "exactly one fixed-text tagged notice
is posted back", zero home-network sends occur: `sendStatusMsg` is invoked
with the fixed tagged text, yet it only queues its send closure into the
array handed to `Promise.all`, which never invokes it. -/
theorem c3_status_room_event_posts_no_notice :
    getThirdPartyRoomIdFromMatrixRoomId outboundEnvStatus.network
        outboundEnvStatus.identityPairId outboundEnvStatus.roomAliases =
      some "status_room".toList ∧
    (handleMatrixMessageEvent defaultCfg outboundEnvStatus statusRoomEvent).1.all
        (fun e => !isAdapterCall e) = true ∧
    ((handleMatrixMessageEvent defaultCfg outboundEnvStatus statusRoomEvent).1.filter
        isHomeSendFx).length = 0 ∧
    (handleMatrixMessageEvent defaultCfg outboundEnvStatus statusRoomEvent).1 =
      [Effect.statusMsgCall [.msgArg (tagMatrixMessage defaultCfg
          "Commands are currently ignored here".toList)], Effect.statusRoomResolve] ∧
    (handleMatrixMessageEvent defaultCfg outboundEnvStatus statusRoomEvent).2 =
      .resolved := by
  decide

/-- C4: evaluation at the failing input.  A room-resolution rejection in
`handleThirdPartyRoomImageMessage` propagates to the caller — the handler
has no outer catch — and no status report is even initiated; the text
handler does catch the same failure and invokes the status reporter with
the error and the (mutated) payload, but its trace contains zero
home-network sends, because `sendStatusMsg` never runs its queued send
closure. -/
theorem c4_inbound_failure_escapes_or_goes_unreported :
    handleThirdPartyRoomImageMessage defaultCfg relayEnvResolveFails imagePayloadUrl =
      ([Effect.resolveRoom (a2bStr "r1".toList)],
       .raised "M_UNKNOWN: could not create room") ∧
    (handleThirdPartyRoomImageMessage defaultCfg relayEnvResolveFails
        imagePayloadUrl).1.all
        (fun e => match e with | .statusMsgCall _ => false | _ => true) = true ∧
    handleThirdPartyRoomMessage defaultCfg relayEnvResolveFails textPayloadPlain =
      ([Effect.resolveRoom (a2bStr "r1".toList),
        Effect.statusMsgCall [.errArg "M_UNKNOWN: could not create room",
          .textPayloadArg (mutateTextPayload textPayloadPlain)],
        Effect.statusRoomResolve], .resolved) ∧
    ((handleThirdPartyRoomMessage defaultCfg relayEnvResolveFails
        textPayloadPlain).1.filter isHomeSendFx).length = 0 := by
  decide

/-- C5: evaluation at the failing input.  For a payload supplying only a
local path, the handler assigns the running `fs.readFile(path).then(() =>
upload(buffer))` promise — not a thunk — to the `promise` variable and then
invokes it as `promise()`: a `TypeError` rejects the handler's promise past
the pipeline, no image message and no tagged fallback text are ever sent,
and the detached read chain uploads `payload.buffer` rather than the bytes
read from the path. -/
theorem c5_path_image_throws_instead_of_falling_back :
    handleThirdPartyRoomImageMessage defaultCfg relayEnvOk imagePayloadPath =
      ([Effect.resolveRoom (a2bStr "r1".toList),
        Effect.readFileStart "/tmp/img.png".toList, Effect.uploadContent],
       .raised promiseNotAFunction) ∧
    (handleThirdPartyRoomImageMessage defaultCfg relayEnvOk imagePayloadPath).1.all
        (fun e => !isHomeSendFx e) = true := by
  decide

/-- `JoinOutcome` Boolean-equality reductions used below. -/
theorem beq_ok_nks : (JoinOutcome.ok == JoinOutcome.noKnownServers) = false := rfl

/-- See `beq_ok_nks`. -/
theorem beq_other_nks (m : Err) :
    (JoinOutcome.otherError m == JoinOutcome.noKnownServers) = false := rfl

/-- See `beq_ok_nks`. -/
theorem beq_nks_nks : (JoinOutcome.noKnownServers == JoinOutcome.noKnownServers) = true := rfl

/-- The number of alias deletions a room resolution performs equals the
number of successive leading `No known servers` join failures the
directory produces. -/
theorem getOrCreate_deleteAliasCount (network pid tpid : Str) :
    ∀ attempts : List RoomAttempt,
      deleteAliasCount
        (getOrCreateMatrixRoomFromThirdPartyRoomId network pid tpid attempts).1 =
      leadingNoKnownServers attempts := by
  intro attempts
  induction attempts with
  | nil => rfl
  | cons a rest ih =>
    rcases hrec : getOrCreateMatrixRoomFromThirdPartyRoomId network pid tpid rest
      with ⟨recFx, res⟩
    cases hj : a.join <;> cases hl : a.lookup <;> cases hav : a.roomAvatarUrl <;>
      cases res <;>
      simp_all [getOrCreateMatrixRoomFromThirdPartyRoomId, deleteAliasCount,
        leadingNoKnownServers, List.filter_append]

/-- A room resolution returns the room id of the first directory entry
whose join does not fail with `No known servers`. -/
theorem getOrCreate_result (network pid tpid : Str) :
    ∀ attempts : List RoomAttempt,
      (getOrCreateMatrixRoomFromThirdPartyRoomId network pid tpid attempts).2 =
      (match firstSettledAttempt attempts with
       | some a => Except.ok (attemptRoomId a)
       | none => Except.error
           "unbounded recursion: no further directory answers supplied") := by
  intro attempts
  induction attempts with
  | nil => rfl
  | cons a rest ih =>
    rcases hrec : getOrCreateMatrixRoomFromThirdPartyRoomId network pid tpid rest
      with ⟨recFx, res⟩
    cases hj : a.join <;> cases hl : a.lookup <;> cases hav : a.roomAvatarUrl <;>
      simp_all [getOrCreateMatrixRoomFromThirdPartyRoomId, firstSettledAttempt,
        attemptRoomId, List.find?, beq_ok_nks, beq_other_nks, beq_nks_nks]

/-- C6, counterexample: a resolution in which the puppet's join fails with
`No known servers` twice before succeeding deletes the stale alias and
restarts from lookup twice, not "exactly once" — the repair recursion in
the source is unbounded. -/
theorem c6_repair_can_retry_more_than_once :
    ¬ (deleteAliasCount
        (getOrCreateMatrixRoomFromThirdPartyRoomId "net".toList "p1".toList
          "cjE=".toList
          [nksAttempt "!r1:hs", nksAttempt "!r2:hs", okAttempt "!r3:hs"]).1 = 1) ∧
    deleteAliasCount
        (getOrCreateMatrixRoomFromThirdPartyRoomId "net".toList "p1".toList
          "cjE=".toList
          [nksAttempt "!r1:hs", nksAttempt "!r2:hs", okAttempt "!r3:hs"]).1 = 2 := by
  decide

/-- C6, amended: when a join attempt fails with `No known servers`, the
stale alias is deleted and resolution restarts from lookup — once per such
failure, without bound, rather than exactly once; no other join outcome
ever triggers an alias deletion, so alias repair is the only retry path;
and in the two-attempt scenario (one failure, then a join that succeeds on
a distinct room) exactly one repair happens and the new room id is
returned. -/
theorem c6_alias_repair_unbounded_and_only_retry_path :
    (∀ (network pid tpid : Str) (attempts : List RoomAttempt),
       deleteAliasCount
         (getOrCreateMatrixRoomFromThirdPartyRoomId network pid tpid attempts).1 =
       leadingNoKnownServers attempts) ∧
    (∀ (network pid tpid : Str) (attempts : List RoomAttempt),
       (∀ a ∈ attempts, a.join ≠ JoinOutcome.noKnownServers) →
       deleteAliasCount
         (getOrCreateMatrixRoomFromThirdPartyRoomId network pid tpid attempts).1 = 0) ∧
    (∀ (network pid tpid : Str) (a1 a2 : RoomAttempt),
       a1.join = JoinOutcome.noKnownServers → a2.join = JoinOutcome.ok →
       attemptRoomId a2 ≠ attemptRoomId a1 →
       deleteAliasCount
         (getOrCreateMatrixRoomFromThirdPartyRoomId network pid tpid [a1, a2]).1 = 1 ∧
       (getOrCreateMatrixRoomFromThirdPartyRoomId network pid tpid [a1, a2]).2 =
         Except.ok (attemptRoomId a2) ∧
       attemptRoomId a2 ≠ attemptRoomId a1) := by
  refine ⟨fun n p t attempts => getOrCreate_deleteAliasCount n p t attempts, ?_, ?_⟩
  · intro n p t attempts hall
    rw [getOrCreate_deleteAliasCount]
    cases attempts with
    | nil => rfl
    | cons a rest =>
      have ha := hall a (by simp)
      cases hj : a.join with
      | noKnownServers => exact absurd hj ha
      | ok => simp [leadingNoKnownServers, hj]
      | otherError m => simp [leadingNoKnownServers, hj]
  · intro n p t a1 a2 h1 h2 hne
    refine ⟨?_, ?_, hne⟩
    · rw [getOrCreate_deleteAliasCount]
      simp [leadingNoKnownServers, h1, h2]
    · rw [getOrCreate_result]
      simp [firstSettledAttempt, List.find?, h1, h2, beq_nks_nks, beq_ok_nks]

/-- C6, witness: the amended theorem's scenario clause at a concrete
one-failure-then-success directory. -/
theorem c6_alias_repair_unbounded_and_only_retry_path_witness :
    deleteAliasCount
      (getOrCreateMatrixRoomFromThirdPartyRoomId "net".toList "p1".toList
        "cjE=".toList [nksAttempt "!r1:hs", okAttempt "!r2:hs"]).1 = 1 ∧
    (getOrCreateMatrixRoomFromThirdPartyRoomId "net".toList "p1".toList
        "cjE=".toList [nksAttempt "!r1:hs", okAttempt "!r2:hs"]).2 =
      Except.ok (attemptRoomId (okAttempt "!r2:hs")) ∧
    attemptRoomId (okAttempt "!r2:hs") ≠ attemptRoomId (nksAttempt "!r1:hs") :=
  c6_alias_repair_unbounded_and_only_retry_path.2.2 "net".toList "p1".toList
    "cjE=".toList (nksAttempt "!r1:hs") (okAttempt "!r2:hs") rfl rfl (by decide)

/-- The configured marker is a suffix of every tagger output. -/
theorem marker_isSuffixOf_tag (cfg : BaseCfg) (s : Str) :
    cfg.deduplicationTag.isSuffixOf (tagMatrixMessage cfg s) = true := by
  rw [tagMatrixMessage, List.isSuffixOf_iff_suffix]
  exact List.suffix_append _ _

/-- The configured marker is a suffix of every `autoTagger` output. -/
theorem marker_isSuffixOf_autoTagger (cfg : BaseCfg) (sid : Option Str) (s : Str) :
    cfg.deduplicationTag.isSuffixOf (autoTagger cfg sid s) = true :=
  marker_isSuffixOf_tag cfg s

/-- Every effect of a `prepareMessageHandler` trace satisfies
`taggedSendFx` (the preparation performs no home-network send at all). -/
theorem prepare_trace_tagged (cfg : BaseCfg) (env : RelayEnv)
    (p : PrepareMessageHandlerParams) :
    (prepareMessageHandler cfg env p).1.all (fun e => taggedSendFx cfg e) = true := by
  cases hr : env.resolveRoom <;> cases hsid : p.senderId <;>
    cases hg : env.ghostProfile <;> cases hs : env.statusRoomId <;>
    cases hjs : env.ghostJoinStatus <;> cases hjr : env.ghostJoinRoom <;>
      simp_all [prepareMessageHandler, taggedSendFx]

/-- The trace of `sendStatusMsg` is the call record and the status-room
resolution, whatever the resolution outcome. -/
theorem sendStatusMsg_fst (sr : Except Err String) (args : List StatusArg) :
    (sendStatusMsg sr args).1 = [Effect.statusMsgCall args, Effect.statusRoomResolve] := by
  cases sr <;> rfl

/-- Every effect of a `sendStatusMsg` trace satisfies `taggedSendFx` (the
run performs no home-network send at all). -/
theorem sendStatusMsg_trace_tagged (cfg : BaseCfg) (sr : Except Err String)
    (args : List StatusArg) :
    (sendStatusMsg sr args).1.all (fun e => taggedSendFx cfg e) = true := by
  cases sr <;> simp [sendStatusMsg, taggedSendFx]

/-- Every home-network send of `handleThirdPartyRoomMessage` carries a
tagged body. -/
theorem text_handler_trace_tagged (cfg : BaseCfg) (env : RelayEnv)
    (p : ThirdPartyMessagePayload) :
    (handleThirdPartyRoomMessage cfg env p).1.all (fun e => taggedSendFx cfg e) = true := by
  simp only [handleThirdPartyRoomMessage]
  split
  · rename_i fx e heq
    have h1 := prepare_trace_tagged cfg env
      { senderId := (mutateTextPayload p).senderId,
        senderName := (mutateTextPayload p).senderName,
        avatarUrl := (mutateTextPayload p).avatarUrl,
        roomId := (mutateTextPayload p).roomId, text := (mutateTextPayload p).text }
    rw [heq] at h1
    simp only [List.all_append]
    simp_all [sendStatusMsg_trace_tagged cfg env.statusRoomId]
  · rename_i fx handler heq
    have h1 := prepare_trace_tagged cfg env
      { senderId := (mutateTextPayload p).senderId,
        senderName := (mutateTextPayload p).senderName,
        avatarUrl := (mutateTextPayload p).avatarUrl,
        roomId := (mutateTextPayload p).roomId, text := (mutateTextPayload p).text }
    rw [heq] at h1
    split
    · exact h1
    · split <;>
        simp_all [List.all_append, taggedSendFx, marker_isSuffixOf_autoTagger,
          sendStatusMsg_fst]

/-- Every home-network send of `handleThirdPartyRoomImageMessage` — the
image caption and the degraded text fallback alike — carries a tagged
body. -/
theorem image_handler_trace_tagged (cfg : BaseCfg) (env : RelayEnv)
    (p : ThirdPartyImageMessagePayload) :
    (handleThirdPartyRoomImageMessage cfg env p).1.all
      (fun e => taggedSendFx cfg e) = true := by
  simp only [handleThirdPartyRoomImageMessage]
  split
  · rename_i fx e heq
    have h1 := prepare_trace_tagged cfg env
      { senderId := (mutateImagePayload p).senderId,
        senderName := (mutateImagePayload p).senderName,
        avatarUrl := (mutateImagePayload p).avatarUrl,
        roomId := (mutateImagePayload p).roomId, text := (mutateImagePayload p).text }
    rw [heq] at h1
    simpa using h1
  · rename_i fx handler heq
    have h1 := prepare_trace_tagged cfg env
      { senderId := (mutateImagePayload p).senderId,
        senderName := (mutateImagePayload p).senderName,
        avatarUrl := (mutateImagePayload p).avatarUrl,
        roomId := (mutateImagePayload p).roomId, text := (mutateImagePayload p).text }
    rw [heq] at h1
    split
    · exact h1
    · split <;> (try split) <;> (try split) <;> (try split) <;>
        simp_all [List.all_append, taggedSendFx, marker_isSuffixOf_autoTagger,
          sendStatusMsg_fst]

/-- Every home-network send of the outbound dispatcher carries a tagged
body (it performs none itself; its status-reporting calls queue, at most,
tagged bodies). -/
theorem outbound_trace_tagged (cfg : BaseCfg) (env : OutboundEnv) (ev : MatrixEvent) :
    (handleMatrixMessageEvent cfg env ev).1.all (fun e => taggedSendFx cfg e) = true := by
  simp only [handleMatrixMessageEvent]
  split
  · simp
  · split
    · exact sendStatusMsg_trace_tagged cfg env.statusRoomId _
    · split
      · exact sendStatusMsg_trace_tagged cfg env.statusRoomId _
      · split <;> (try split) <;> (try split) <;>
          simp_all [List.all_append, taggedSendFx, sendStatusMsg_fst]

/-- An already-tagged inbound event is dropped before any processing. -/
theorem outbound_tagged_body_ignored (cfg : BaseCfg) (env : OutboundEnv)
    (ev : MatrixEvent) (h : isTaggedMatrixMessage cfg ev.body = true) :
    handleMatrixMessageEvent cfg env ev = ([], .resolved) := by
  simp [handleMatrixMessageEvent, h]

/-- C7: every message body this system sends into the home network — by
the two inbound relay handlers, by the outbound dispatcher, or by
`sendStatusMsg` (including the status-notice body it queues but never
delivers) — carries the deduplication marker, i.e. has passed through the
tagger; and every inbound home-network event body is checked with the tag
test first: a tagged body makes the outbound dispatcher return before
considering any relay.  `autoTagger` is `./utils` repository code not
under `src/`, modelled from the spec's section 4.5 contract. -/
theorem c7_every_home_send_tagged_and_inbound_checked :
    (∀ (cfg : BaseCfg) (env : RelayEnv) (p : ThirdPartyMessagePayload),
       (handleThirdPartyRoomMessage cfg env p).1.all
         (fun e => taggedSendFx cfg e) = true) ∧
    (∀ (cfg : BaseCfg) (env : RelayEnv) (p : ThirdPartyImageMessagePayload),
       (handleThirdPartyRoomImageMessage cfg env p).1.all
         (fun e => taggedSendFx cfg e) = true) ∧
    (∀ (cfg : BaseCfg) (env : OutboundEnv) (ev : MatrixEvent),
       (handleMatrixMessageEvent cfg env ev).1.all
         (fun e => taggedSendFx cfg e) = true) ∧
    (∀ (cfg : BaseCfg) (sr : Except Err String) (args : List StatusArg),
       (sendStatusMsg sr args).1.all (fun e => taggedSendFx cfg e) = true ∧
       cfg.deduplicationTag.isSuffixOf (sendStatusMsgQueuedBody cfg args) = true) ∧
    (∀ (cfg : BaseCfg) (env : OutboundEnv) (ev : MatrixEvent),
       isTaggedMatrixMessage cfg ev.body = true →
       handleMatrixMessageEvent cfg env ev = ([], .resolved)) :=
  ⟨text_handler_trace_tagged, image_handler_trace_tagged, outbound_trace_tagged,
   fun cfg sr args =>
     ⟨sendStatusMsg_trace_tagged cfg sr args, marker_isSuffixOf_tag cfg _⟩,
   outbound_tagged_body_ignored⟩

/-- C7, witness: the inbound check clause at a concrete already-tagged
event, with the other clauses evaluated on the same concrete data. -/
theorem c7_every_home_send_tagged_and_inbound_checked_witness :
    handleMatrixMessageEvent defaultCfg outboundEnvStatus taggedBodyEvent =
      ([], .resolved) :=
  c7_every_home_send_tagged_and_inbound_checked.2.2.2.2 defaultCfg
    outboundEnvStatus taggedBodyEvent (by decide)

end MatrixPuppet
